import Mathlib

/-!
Verification of the remote pseudo-terminal bridge of the NexusControllers
repository.

The embedding covers the terminal WebSocket handlers of
`src/DOAS/Element/server.py` (the global `terminals` dict, the handlers
`handle_terminal_connect`, `handle_terminal_input`, `handle_terminal_resize`,
`handle_disconnect`, and the background relay `read_terminal_output`) and the
Node terminal handlers the installer `src/DOAS/Element/SetupNexus.py` patches
into `server.js` (the `pty.spawn` call and the `onExit` handler).

Handlers are embedded as pure functions from the registry and the event data
to a result record carrying the new registry, the ordered list of OS / socket
effects the handler performed, and the exception it raised, if any
(Python exceptions propagate out of a handler; `raised = some msg` models
that).  The two fallible OS calls of session creation (`pty.openpty` and
`subprocess.Popen`) are parametrised by an oracle giving their outcomes.
The relay loop is embedded as a function over a trace of loop iterations,
each iteration carrying the registry snapshot observed at the membership
check of the loop and the outcome of the `select`/`os.read` of that iteration
(concurrent registry mutations are interleaved at iteration boundaries).
-/

namespace NexusPortal

/-- A POSIX file descriptor, as returned by `pty.openpty()`. -/
abbrev Fd := Nat

/-- A process id / subprocess handle, as returned by `subprocess.Popen`. -/
abbrev Pid := Nat

/-- A connection identifier (`request.sid` in server.py): an opaque string. -/
abbrev Sid := String

/-- One entry of the `terminals` dict of server.py:
a dict with keys `master_fd`, `slave_fd`, `process` (lines 152-156). -/
structure Term where
  master_fd : Fd
  slave_fd : Fd
  process : Pid
deriving DecidableEq

/-- The `terminals` dict (server.py line 28), as an association list. -/
abbrev Registry := List (Sid × Term)

/-- Dict lookup `terminals[sid]` / membership test; first binding wins. -/
def regLookup : Registry → Sid → Option Term
  | [], _ => none
  | (k, t) :: r, sid => if k == sid then some t else regLookup r sid

/-- `sid in terminals`. -/
def regContains (r : Registry) (sid : Sid) : Bool :=
  (regLookup r sid).isSome

/-- `del terminals[sid]`: removes every binding of the key. -/
def regErase : Registry → Sid → Registry
  | [], _ => []
  | (k, t) :: r, sid => if k == sid then regErase r sid else (k, t) :: regErase r sid

/-- `terminals[sid] = t`.  In server.py the assignment only ever happens
after the `if session_id in terminals: return` guard, so the key is absent
at every call; prepending gives exactly dict-assignment lookup semantics. -/
def regInsert (r : Registry) (sid : Sid) (t : Term) : Registry :=
  (sid, t) :: r

/-- The argument record of the `subprocess.Popen` call of
`handle_terminal_connect` (server.py lines 144-150).  `env = none` models
that the call passes no `env` keyword, so the child inherits the
environment of the parent process verbatim. -/
structure PopenCall where
  argv : List String
  stdin : Fd
  stdout : Fd
  stderr : Fd
  preexec_setsid : Bool
  env : Option (List (String × String))
deriving DecidableEq

/-- The exact `Popen` call server.py issues for a given PTY slave fd:
`Popen(["/bin/bash"], stdin=slave_fd, stdout=slave_fd, stderr=slave_fd,
preexec_fn=os.setsid)` — no `env` keyword. -/
def server_popen (slave_fd : Fd) : PopenCall :=
  { argv := ["/bin/bash"]
    stdin := slave_fd
    stdout := slave_fd
    stderr := slave_fd
    preexec_setsid := true
    env := none }

/-- The environment the spawned child actually sees, given the environment
of the parent process: the `env` of the call if one was passed, else the
parent environment, inherited verbatim (Python `subprocess.Popen(env=None)`). -/
def spawnedEnv (call : PopenCall) (parent : List (String × String)) :
    List (String × String) :=
  call.env.getD parent

/-- First binding of a key in an environment list. -/
def envLookup : List (String × String) → String → Option String
  | [], _ => none
  | (k, v) :: e, key => if k == key then some v else envLookup e key

/-- An observable OS / socket action performed by a handler or by the relay,
in the order the Python code performs it. -/
inductive Effect where
  /-- `pty.openpty()` returned this master/slave pair (line 141). -/
  | openPty (master_fd slave_fd : Fd)
  /-- `subprocess.Popen(...)` with these arguments returned this pid (144-150). -/
  | spawnProc (call : PopenCall) (pid : Pid)
  /-- `fcntl.ioctl(fd, termios.TIOCSWINSZ, struct.pack("HHHH", rows, cols, 0, 0))`
  (lines 192-193). -/
  | ioctlWinsize (fd : Fd) (rows cols : Nat)
  /-- `os.write(fd, bytes)` (line 179). -/
  | writeFd (fd : Fd) (bytes : List Nat)
  /-- `process.terminate()` (line 202). -/
  | terminate (pid : Pid)
  /-- `os.close(fd)` (lines 203-204). -/
  | closeFd (fd : Fd)
  /-- an `emit` of a `terminal_output` event with this data to the client of `sid`
  (line 168 and line 221). -/
  | emitOutput (sid : Sid) (data : String)
  /-- `socketio.start_background_task(target=read_terminal_output, ...)` (166). -/
  | startRelay (sid : Sid)
  /-- `select.select([fd], [], [], 0.1)` — the bounded wait, timeout in
  milliseconds (the `0.1` seconds of line 217). -/
  | selectPoll (fd : Fd) (timeout_ms : Nat)
  /-- `os.read(fd, count)` returned these bytes (line 220; `count = 1024`). -/
  | readFd (fd : Fd) (count : Nat) (bytes : List Nat)
deriving DecidableEq

/-- Whether an effect is an outbound `terminal_output` emission. -/
def Effect.isEmit : Effect → Bool
  | Effect.emitOutput _ _ => true
  | _ => false

/-- The outcome of running one handler: the `terminals` dict afterwards, the
effects performed (in order), and the exception that propagated out of the
handler, if any. -/
structure HResult where
  terminals : Registry
  effects : List Effect
  raised : Option String
deriving DecidableEq

/-- Outcomes of the two fallible OS calls of session creation. -/
structure OsOracle where
  openpty : Except String (Fd × Fd)
  popen : Except String Pid

/-- server.py lines 170-179, `handle_terminal_input`: unknown session is an
early return; otherwise an `os.write` to the master fd of the UTF-8
encoding of the data string. -/
def handle_terminal_input (terminals : Registry) (sid : Sid) (data : String) :
    HResult :=
  match regLookup terminals sid with
  | none => ⟨terminals, [], none⟩
  | some t => ⟨terminals, [Effect.writeFd t.master_fd
      ((String.toUTF8 data).toList.map (fun b => b.toNat))], none⟩

/-- server.py lines 181-193, `handle_terminal_resize`: unknown session is an
early return; otherwise `struct.pack("HHHH", rows, cols, 0, 0)` — which
raises `struct.error` unless both values fit an unsigned 16-bit field —
followed by `fcntl.ioctl(master_fd, termios.TIOCSWINSZ, winsize)`. -/
def handle_terminal_resize (terminals : Registry) (sid : Sid)
    (rows cols : Int) : HResult :=
  match regLookup terminals sid with
  | none => ⟨terminals, [], none⟩
  | some t =>
    if 0 ≤ rows ∧ rows ≤ 65535 ∧ 0 ≤ cols ∧ cols ≤ 65535 then
      ⟨terminals, [Effect.ioctlWinsize t.master_fd rows.toNat cols.toNat], none⟩
    else
      ⟨terminals, [], some "struct.error"⟩

/-- server.py lines 195-205, `handle_disconnect`: if the session exists,
`process.terminate()`, `os.close(master_fd)`, `os.close(slave_fd)`,
`del terminals[session_id]`; otherwise nothing. -/
def handle_disconnect (terminals : Registry) (sid : Sid) : HResult :=
  match regLookup terminals sid with
  | none => ⟨terminals, [], none⟩
  | some t =>
    ⟨regErase terminals sid,
     [Effect.terminate t.process, Effect.closeFd t.master_fd,
      Effect.closeFd t.slave_fd], none⟩

/-- The payload of a `terminal_connect` event (server.py `data`): the two
optional keys the handler inspects (`cols` and `rows` membership tests). -/
structure ConnectData where
  cols : Option Int
  rows : Option Int
deriving DecidableEq

/-- server.py lines 132-168, `handle_terminal_connect`:
duplicate-session early return; `pty.openpty()`; `subprocess.Popen`
(see `server_popen`); dict insert; if both `cols` and `rows` are in the
payload, a nested call to `handle_terminal_resize` (whose `struct.error`, if
any, propagates and skips the rest); `start_background_task(read_terminal_output)`;
an `emit` of a `terminal_output` event whose data is the f-string
`Connected to ...serial...` followed by CR LF. -/
def handle_terminal_connect (os : OsOracle) (terminals : Registry) (sid : Sid)
    (data : ConnectData) (serial : String) : HResult :=
  if regContains terminals sid then
    ⟨terminals, [], none⟩
  else
    match os.openpty with
    | Except.error e => ⟨terminals, [], some e⟩
    | Except.ok (master_fd, slave_fd) =>
      match os.popen with
      | Except.error e =>
        ⟨terminals, [Effect.openPty master_fd slave_fd], some e⟩
      | Except.ok p =>
        let terminals1 := regInsert terminals sid (Term.mk master_fd slave_fd p)
        let eff1 := [Effect.openPty master_fd slave_fd,
                     Effect.spawnProc (server_popen slave_fd) p]
        match data.cols, data.rows with
        | some c, some r =>
          let res := handle_terminal_resize terminals1 sid r c
          match res.raised with
          | some e => ⟨res.terminals, eff1 ++ res.effects, some e⟩
          | none =>
            ⟨res.terminals,
             eff1 ++ res.effects ++
               [Effect.startRelay sid,
                Effect.emitOutput sid ("Connected to " ++ serial ++ "\r\n")],
             none⟩
        | _, _ =>
          ⟨terminals1,
           eff1 ++ [Effect.startRelay sid,
                    Effect.emitOutput sid ("Connected to " ++ serial ++ "\r\n")],
           none⟩

/-- The Unicode replacement character U+FFFD. -/
def replCh : Char := Char.ofNat 0xFFFD

/-- The UTF-8 decoder of Python `bytes.decode("utf-8", errors="replace")`:
well-formed sequences decode to their code point; each maximal invalid
subpart is replaced by one U+FFFD, and decoding resumes at the byte that
made it invalid (the behaviour CPython implements for the replace handler).
Structured on a fuel argument for termination; every step consumes at least
one input byte, so fuel equal to the input length (see `decodeUtf8Replace`)
never runs out. -/
def utf8Go : Nat → List Nat → List Char
  | 0, _ => []
  | _, [] => []
  | fuel + 1, b1 :: rest1 =>
    if b1 ≤ 0x7F then
      Char.ofNat b1 :: utf8Go fuel rest1
    else if b1 < 0xC2 then
      replCh :: utf8Go fuel rest1
    else if b1 ≤ 0xDF then
      match rest1 with
      | [] => [replCh]
      | b2 :: rest2 =>
        if 0x80 ≤ b2 ∧ b2 ≤ 0xBF then
          Char.ofNat ((b1 - 0xC0) * 64 + (b2 - 0x80)) :: utf8Go fuel rest2
        else
          replCh :: utf8Go fuel rest1
    else if b1 ≤ 0xEF then
      match rest1 with
      | [] => [replCh]
      | b2 :: rest2 =>
        if (if b1 = 0xE0 then 0xA0 else 0x80) ≤ b2 ∧
           b2 ≤ (if b1 = 0xED then 0x9F else 0xBF) then
          match rest2 with
          | [] => [replCh]
          | b3 :: rest3 =>
            if 0x80 ≤ b3 ∧ b3 ≤ 0xBF then
              Char.ofNat ((b1 - 0xE0) * 4096 + (b2 - 0x80) * 64 + (b3 - 0x80))
                :: utf8Go fuel rest3
            else
              replCh :: utf8Go fuel rest2
        else
          replCh :: utf8Go fuel rest1
    else if b1 ≤ 0xF4 then
      match rest1 with
      | [] => [replCh]
      | b2 :: rest2 =>
        if (if b1 = 0xF0 then 0x90 else 0x80) ≤ b2 ∧
           b2 ≤ (if b1 = 0xF4 then 0x8F else 0xBF) then
          match rest2 with
          | [] => [replCh]
          | b3 :: rest3 =>
            if 0x80 ≤ b3 ∧ b3 ≤ 0xBF then
              match rest3 with
              | [] => [replCh]
              | b4 :: rest4 =>
                if 0x80 ≤ b4 ∧ b4 ≤ 0xBF then
                  Char.ofNat ((b1 - 0xF0) * 262144 + (b2 - 0x80) * 4096 +
                      (b3 - 0x80) * 64 + (b4 - 0x80))
                    :: utf8Go fuel rest4
                else
                  replCh :: utf8Go fuel rest3
            else
              replCh :: utf8Go fuel rest2
        else
          replCh :: utf8Go fuel rest1
    else
      replCh :: utf8Go fuel rest1

/-- Python `bytes(bs).decode("utf-8", errors="replace")` as a String. -/
def decodeUtf8Replace (bs : List Nat) : String :=
  String.mk (utf8Go bs.length bs)

/-- The outcome of one iteration of the relay loop, i.e. of one
`select.select([master_fd], [], [], 0.1)` followed, when ready, by
`os.read(master_fd, 1024)`:
`notReady` — the select timed out with nothing to read;
`readOk bytes` — the select reported readiness and the read returned these
bytes (a read returning zero bytes is `readOk []`);
`readErr` — the select or the read raised (the bare `except` of line 222). -/
inductive Poll where
  | notReady
  | readOk (bytes : List Nat)
  | readErr
deriving DecidableEq

/-- server.py lines 214-223: the `while session_id in terminals` loop of
`read_terminal_output`.  Each trace element is the registry snapshot the
membership check observes and the outcome of the select/read of that
iteration; `master_fd` was captured once before the loop.  On a snapshot
without the session the loop exits at the check, performing nothing further;
on `readErr` the bare `except` breaks out of the loop. -/
def relayRun (sid : Sid) (master_fd : Fd) :
    List (Registry × Poll) → List Effect
  | [] => []
  | (reg, p) :: rest =>
    if regContains reg sid then
      Effect.selectPoll master_fd 100 ::
        (match p with
         | Poll.notReady => relayRun sid master_fd rest
         | Poll.readOk bytes =>
             Effect.readFd master_fd 1024 bytes ::
             Effect.emitOutput sid (decodeUtf8Replace bytes) ::
             relayRun sid master_fd rest
         | Poll.readErr => [])
    else
      []

/-- server.py lines 207-223, `read_terminal_output`: the initial
`if session_id not in terminals: return` guard, the capture of `master_fd`
from the registry entry, then the poll loop (`relayRun`). -/
def read_terminal_output (terminals0 : Registry) (sid : Sid)
    (trace : List (Registry × Poll)) : List Effect :=
  match regLookup terminals0 sid with
  | none => []
  | some t => relayRun sid t.master_fd trace

/-- The data strings of the `terminal_output` emissions among a list of
effects, in order. -/
def emittedData (effs : List Effect) : List String :=
  effs.filterMap (fun e =>
    match e with
    | Effect.emitOutput _ d => some d
    | _ => none)

/-- The PTY window size each fd reports after an effect, as set by
`TIOCSWINSZ` (the size a `TIOCGWINSZ` query would return). -/
def applyEffectWinsize (w : Fd → Option (Nat × Nat)) :
    Effect → (Fd → Option (Nat × Nat))
  | Effect.ioctlWinsize fd r c => fun f => if f = fd then some (r, c) else w f
  | _ => w

/-- The PTY window size each fd reports after a list of effects. -/
def winsizeAfter (effs : List Effect) (w0 : Fd → Option (Nat × Nat)) :
    Fd → Option (Nat × Nat) :=
  effs.foldl applyEffectWinsize w0

/-- Selected options of the `pty.spawn` call inside the Node terminal
handlers that SetupNexus.py (lines 1112-1122) patches into server.js:
`pty.spawn(process.env.SHELL or bash, [--norc, -i], ... name:
xterm-256color ... env: ...process.env with TERM: xterm-256color...)`. -/
structure JsPtySpawn where
  file : String
  args : List String
  termName : String
  env_TERM : Option String
deriving DecidableEq

/-- The spawn call of the patched Node handlers (SetupNexus.py 1112-1122). -/
def js_pty_spawn : JsPtySpawn :=
  { file := "bash"
    args := ["--norc", "-i"]
    termName := "xterm-256color"
    env_TERM := some "xterm-256color" }

/-- The `terminal-output` emissions of the `ptyProcess.onExit` handler of the
patched Node server (SetupNexus.py lines 1130-1133): exactly one completion
notice. -/
def js_onExit_emits : List String :=
  ["\r\n[Process completed]\r\n"]

/-- A creation oracle on which both OS calls succeed, for concrete runs. -/
def osOk : OsOracle :=
  { openpty := Except.ok (3, 4), popen := Except.ok 7 }

/-- A creation oracle on which the PTY allocation fails, for concrete runs. -/
def osFail : OsOracle :=
  { openpty := Except.error "ENOMEM", popen := Except.ok 7 }

/-! ## Registry lemmas -/

/-- After `del terminals[sid]` the key is gone. -/
theorem regLookup_erase (r : Registry) (sid : Sid) :
    regLookup (regErase r sid) sid = none := by
  induction r with
  | nil => rfl
  | cons e r ih =>
    obtain ⟨k, t⟩ := e
    by_cases hk : k == sid
    · simpa [regErase, hk] using ih
    · simpa [regErase, regLookup, hk] using ih

/-- A freshly inserted binding is found. -/
theorem regLookup_insert (r : Registry) (sid : Sid) (t : Term) :
    regLookup (regInsert r sid t) sid = some t := by
  simp [regInsert, regLookup]

/-! ## Claim theorems -/

/-- C1: an init event (`handle_terminal_connect`) for a connection identifier
that already has a live session in the registry is a no-op: the handler
returns at its duplicate guard, performing no OS action (no second PTY pair,
no second subprocess), raising nothing and leaving the registry unchanged. -/
theorem connect_duplicate_noop (os : OsOracle) (terminals : Registry)
    (sid : Sid) (data : ConnectData) (serial : String)
    (h : regContains terminals sid = true) :
    handle_terminal_connect os terminals sid data serial
      = ⟨terminals, [], none⟩ := by
  simp [handle_terminal_connect, h]

/-- Witness for `connect_duplicate_noop` at a concrete registry. -/
theorem connect_duplicate_noop_witness :
    regContains [("A", Term.mk 3 4 7)] "A" = true ∧
    handle_terminal_connect osOk [("A", Term.mk 3 4 7)] "A"
        ⟨some 80, some 24⟩ "S"
      = ⟨[("A", Term.mk 3 4 7)], [], none⟩ :=
  ⟨by decide,
   connect_duplicate_noop osOk [("A", Term.mk 3 4 7)] "A"
     ⟨some 80, some 24⟩ "S" (by decide)⟩

/-- C2 (code bug): on the read-error path into `Closed`, the relay of
server.py performs no cleanup at all — its only effect is the bounded-wait
poll: no `process.terminate()`, no `os.close`, and the registry entry stays
(the relay never mutates the registry).  Only `handle_disconnect` terminates
the subprocess and closes both fds; a subprocess exiting on its own triggers
no handler whatsoever.  This evaluates both paths on a live session. -/
theorem read_error_leaves_orphan :
    read_terminal_output [("A", Term.mk 10 11 12)] "A"
        [([("A", Term.mk 10 11 12)], Poll.readErr)]
      = [Effect.selectPoll 10 100] ∧
    (handle_disconnect [("A", Term.mk 10 11 12)] "A").effects
      = [Effect.terminate 12, Effect.closeFd 10, Effect.closeFd 11] := by
  decide

/-- C3 counterexample: a read error on a live session makes the relay of
server.py break out of its loop without emitting anything — in particular
no "process completed" notice is ever sent on that path. -/
theorem relay_read_error_emits_nothing :
    (read_terminal_output [("B", Term.mk 20 21 22)] "B"
        [([("B", Term.mk 20 21 22)], Poll.readErr)]).all
      (fun e => !(Effect.isEmit e)) = true := by
  decide

/-- C3 amended: on a read error the server.py relay exits at once and emits
nothing (no completion notice); a read returning zero bytes is forwarded as
an empty output event and the loop continues; the one "[Process completed]"
notice lives only in the Node handlers patched in by SetupNexus.py, whose
onExit emits it exactly once; and the relay emits nothing on an iteration
whose registry check no longer finds the session. -/
theorem relay_completion_notice (sid : Sid) (fd : Fd) (reg : Registry)
    (rest : List (Registry × Poll)) (h : regContains reg sid = true) :
    relayRun sid fd ((reg, Poll.readErr) :: rest)
      = [Effect.selectPoll fd 100] ∧
    relayRun sid fd ((reg, Poll.readOk []) :: rest)
      = Effect.selectPoll fd 100 :: Effect.readFd fd 1024 [] ::
          Effect.emitOutput sid "" :: relayRun sid fd rest ∧
    js_onExit_emits = ["\r\n[Process completed]\r\n"] ∧
    (∀ (reg2 : Registry) (p : Poll) (rest2 : List (Registry × Poll)),
       regContains reg2 sid = false →
       relayRun sid fd ((reg2, p) :: rest2) = []) := by
  refine ⟨by simp [relayRun, h], ?_, rfl, ?_⟩
  · simp [relayRun, h, decodeUtf8Replace, utf8Go]
  · intro reg2 p rest2 h2
    simp [relayRun, h2]

/-- Witness for `relay_completion_notice` at a concrete session. -/
theorem relay_completion_notice_witness :
    regContains [("A", Term.mk 3 4 7)] "A" = true ∧
    relayRun "A" 3 [([("A", Term.mk 3 4 7)], Poll.readErr)]
      = [Effect.selectPoll 3 100] :=
  ⟨by decide,
   (relay_completion_notice "A" 3 [("A", Term.mk 3 4 7)] [] (by decide)).1⟩

/-- C4 counterexample: the `Popen` call of server.py passes no `env`, so
with a parent environment that lacks `TERM` the spawned shell has no
terminal-type variable at all (and in general only whatever the server
process happened to inherit). -/
theorem popen_env_missing_term :
    (server_popen 5).env = none ∧
    envLookup (spawnedEnv (server_popen 5) []) "TERM" = none := by
  decide

/-- C4 amended: server.py spawns `/bin/bash` with stdin, stdout and stderr
all attached to the PTY slave fd and with `preexec_fn=os.setsid` (a new
session/process group), but with no environment override — the child
inherits the parent environment verbatim, which need not define `TERM`;
the terminal-type variable `TERM=xterm-256color` is set only by the
`pty.spawn` call of the Node handlers patched in by SetupNexus.py. -/
theorem spawn_attachment (slave_fd : Fd) (parent : List (String × String)) :
    (server_popen slave_fd).argv = ["/bin/bash"] ∧
    (server_popen slave_fd).stdin = slave_fd ∧
    (server_popen slave_fd).stdout = slave_fd ∧
    (server_popen slave_fd).stderr = slave_fd ∧
    (server_popen slave_fd).preexec_setsid = true ∧
    spawnedEnv (server_popen slave_fd) parent = parent ∧
    js_pty_spawn.env_TERM = some "xterm-256color" ∧
    js_pty_spawn.termName = "xterm-256color" :=
  ⟨rfl, rfl, rfl, rfl, rfl, rfl, rfl, rfl⟩

/-- C5: input, resize and disconnect events whose identifier has no live
session are silent no-ops — no exception, no effect, registry unchanged —
and disconnect is idempotent: after one disconnect for an identifier, a
second one is a no-op on the resulting registry. -/
theorem unknown_session_noop (terminals : Registry) (sid : Sid) (d : String)
    (rows cols : Int) (h : regContains terminals sid = false) :
    handle_terminal_input terminals sid d = ⟨terminals, [], none⟩ ∧
    handle_terminal_resize terminals sid rows cols = ⟨terminals, [], none⟩ ∧
    handle_disconnect terminals sid = ⟨terminals, [], none⟩ ∧
    (∀ terminals2 : Registry,
       handle_disconnect (handle_disconnect terminals2 sid).terminals sid
         = ⟨(handle_disconnect terminals2 sid).terminals, [], none⟩) := by
  have hl : regLookup terminals sid = none := by
    cases e : regLookup terminals sid with
    | none => rfl
    | some t => simp [regContains, e] at h
  refine ⟨by simp [handle_terminal_input, hl],
          by simp [handle_terminal_resize, hl],
          by simp [handle_disconnect, hl], ?_⟩
  intro terminals2
  cases e : regLookup terminals2 sid with
  | none => simp [handle_disconnect, e]
  | some t => simp [handle_disconnect, e, regLookup_erase]

/-- Witness for `unknown_session_noop` at a concrete registry. -/
theorem unknown_session_noop_witness :
    regContains [("B", Term.mk 5 6 9)] "A" = false ∧
    handle_terminal_input [("B", Term.mk 5 6 9)] "A" "ls"
      = ⟨[("B", Term.mk 5 6 9)], [], none⟩ :=
  ⟨by decide,
   (unknown_session_noop [("B", Term.mk 5 6 9)] "A" "ls" 24 80 (by decide)).1⟩

/-- C6: the relay task exits promptly once its session leaves the registry:
a relay started for an identifier with no registry entry performs nothing;
once a loop iteration observes the session gone, no further effect — no
select, no read, no emission — occurs; and every wait the loop ever performs
is the bounded 100 ms select, so removal is observed within one poll
interval. -/
theorem relay_prompt_termination :
    (∀ (terminals0 : Registry) (sid : Sid) (trace : List (Registry × Poll)),
       regContains terminals0 sid = false →
       read_terminal_output terminals0 sid trace = []) ∧
    (∀ (sid : Sid) (fd : Fd) (pre : List (Registry × Poll)) (reg : Registry)
       (p : Poll) (rest : List (Registry × Poll)),
       regContains reg sid = false →
       relayRun sid fd (pre ++ (reg, p) :: rest) = relayRun sid fd pre) ∧
    (∀ (sid : Sid) (fd f : Fd) (ms : Nat) (trace : List (Registry × Poll)),
       Effect.selectPoll f ms ∈ relayRun sid fd trace → ms = 100) := by
  refine ⟨?_, ?_, ?_⟩
  · intro terminals0 sid trace h
    have hl : regLookup terminals0 sid = none := by
      cases e : regLookup terminals0 sid with
      | none => rfl
      | some t => simp [regContains, e] at h
    simp [read_terminal_output, hl]
  · intro sid fd pre reg p rest h
    induction pre with
    | nil => simp [relayRun, h]
    | cons hd pre ih =>
      obtain ⟨r0, p0⟩ := hd
      cases hc : regContains r0 sid with
      | false => simp [relayRun, hc]
      | true => cases p0 <;> simp [relayRun, hc, ih]
  · intro sid fd f ms trace hmem
    induction trace with
    | nil => simp [relayRun] at hmem
    | cons hd rest ih =>
      obtain ⟨r0, p0⟩ := hd
      cases hc : regContains r0 sid with
      | false => simp [relayRun, hc] at hmem
      | true =>
        cases p0 with
        | notReady =>
          simp only [relayRun, hc, if_true, List.mem_cons] at hmem
          rcases hmem with h1 | h2
          · exact (Effect.selectPoll.injEq _ _ _ _).mp h1 |>.2
          · exact ih h2
        | readOk bytes =>
          simp only [relayRun, hc, if_true, List.mem_cons] at hmem
          rcases hmem with h1 | h1 | h1 | h2
          · exact (Effect.selectPoll.injEq _ _ _ _).mp h1 |>.2
          · exact absurd h1 (by simp)
          · exact absurd h1 (by simp)
          · exact ih h2
        | readErr =>
          simp only [relayRun, hc, if_true, List.mem_cons,
            List.not_mem_nil, or_false] at hmem
          exact (Effect.selectPoll.injEq _ _ _ _).mp hmem |>.2

/-- Witness for `relay_prompt_termination`: a trace whose second iteration
observes the session removed contributes nothing beyond the first. -/
theorem relay_prompt_termination_witness :
    regContains ([] : Registry) "A" = false ∧
    relayRun "A" 3 ([([("A", Term.mk 3 4 7)], Poll.readOk [104])] ++
        (([], Poll.notReady) :: []))
      = relayRun "A" 3 [([("A", Term.mk 3 4 7)], Poll.readOk [104])] :=
  ⟨by decide,
   relay_prompt_termination.2.1 "A" 3
     [([("A", Term.mk 3 4 7)], Poll.readOk [104])] [] Poll.notReady []
     (by decide)⟩

/-- C7 counterexample: a resize whose row count does not fit an unsigned
16-bit field makes `struct.pack` raise `struct.error` before any ioctl:
the handler raises and applies no window-size change at all, so a following
window-size query cannot return the requested dimensions. -/
theorem resize_oversize_raises :
    handle_terminal_resize [("A", Term.mk 3 4 7)] "A" 65536 80
      = ⟨[("A", Term.mk 3 4 7)], [], some "struct.error"⟩ := by
  decide

/-- C7 amended: for a live session and any resize whose rows and cols both
lie in the unsigned 16-bit range, the handler performs exactly one
`TIOCSWINSZ` ioctl on the master fd of the session with those dimensions,
raising nothing, and an immediately following window-size query on that fd
returns `(rows, cols)` — with no precondition on prior output or any other
state, so the call is valid at any point while the session lives. -/
theorem resize_applies_winsize (terminals : Registry) (sid : Sid) (t : Term)
    (rows cols : Int) (w0 : Fd → Option (Nat × Nat))
    (hl : regLookup terminals sid = some t)
    (hr : 0 ≤ rows ∧ rows ≤ 65535) (hc : 0 ≤ cols ∧ cols ≤ 65535) :
    handle_terminal_resize terminals sid rows cols
      = ⟨terminals,
         [Effect.ioctlWinsize t.master_fd rows.toNat cols.toNat], none⟩ ∧
    winsizeAfter (handle_terminal_resize terminals sid rows cols).effects w0
        t.master_fd
      = some (rows.toNat, cols.toNat) := by
  have h1 : handle_terminal_resize terminals sid rows cols
      = ⟨terminals,
         [Effect.ioctlWinsize t.master_fd rows.toNat cols.toNat], none⟩ := by
    simp [handle_terminal_resize, hl, hr.1, hr.2, hc.1, hc.2]
  refine ⟨h1, ?_⟩
  rw [h1]
  simp [winsizeAfter, applyEffectWinsize]

/-- Witness for `resize_applies_winsize` at a concrete session and size. -/
theorem resize_applies_winsize_witness :
    regLookup [("A", Term.mk 3 4 7)] "A" = some (Term.mk 3 4 7) ∧
    (handle_terminal_resize [("A", Term.mk 3 4 7)] "A" 24 80
       = ⟨[("A", Term.mk 3 4 7)], [Effect.ioctlWinsize 3 24 80], none⟩ ∧
     winsizeAfter
         (handle_terminal_resize [("A", Term.mk 3 4 7)] "A" 24 80).effects
         (fun _ => none) 3
       = some (24, 80)) :=
  ⟨by decide,
   resize_applies_winsize [("A", Term.mk 3 4 7)] "A" (Term.mk 3 4 7) 24 80
     (fun _ => none) (by decide) (by decide) (by decide)⟩

/-- C8: if PTY allocation fails, or allocation succeeds and the subprocess
spawn fails, `handle_terminal_connect` surfaces the failure synchronously
(the exception propagates out of the handler), adds no entry to the
registry, starts no relay task, and emits nothing to the client. -/
theorem connect_failure_no_session (os : OsOracle) (terminals : Registry)
    (sid : Sid) (data : ConnectData) (serial : String)
    (hnew : regContains terminals sid = false)
    (hfail : (∃ e, os.openpty = Except.error e) ∨
             ((∃ fds, os.openpty = Except.ok fds) ∧
              ∃ e, os.popen = Except.error e)) :
    (handle_terminal_connect os terminals sid data serial).terminals
        = terminals ∧
    (handle_terminal_connect os terminals sid data serial).raised.isSome
        = true ∧
    (∀ s, Effect.startRelay s
        ∉ (handle_terminal_connect os terminals sid data serial).effects) ∧
    (∀ e, e ∈ (handle_terminal_connect os terminals sid data serial).effects →
        Effect.isEmit e = false) := by
  rcases hfail with ⟨e, he⟩ | ⟨⟨⟨m, s⟩, hok⟩, e, he⟩
  · simp [handle_terminal_connect, hnew, he]
  · simp [handle_terminal_connect, hnew, hok, he, Effect.isEmit]

/-- Witness for `connect_failure_no_session` on a failing PTY allocation. -/
theorem connect_failure_no_session_witness :
    regContains ([] : Registry) "A" = false ∧
    osFail.openpty = Except.error "ENOMEM" ∧
    (handle_terminal_connect osFail [] "A" ⟨none, none⟩ "S").terminals = [] ∧
    (handle_terminal_connect osFail [] "A" ⟨none, none⟩ "S").raised.isSome
      = true :=
  ⟨by decide, rfl,
   (connect_failure_no_session osFail [] "A" ⟨none, none⟩ "S" (by decide)
      (Or.inl ⟨"ENOMEM", rfl⟩)).1,
   (connect_failure_no_session osFail [] "A" ⟨none, none⟩ "S" (by decide)
      (Or.inl ⟨"ENOMEM", rfl⟩)).2.1⟩

/-- C9 counterexample: an init whose payload has both keys but an oversized
row count (65536) still creates the session — the PTY is allocated, the
shell is spawned and the registry entry is added — yet the nested resize
raises `struct.error`, so the handler raises, no relay is started and no
connected notice is emitted: a successful creation without the notice. -/
theorem connect_oversize_no_notice :
    regContains
        (handle_terminal_connect osOk [] "A" ⟨some 80, some 65536⟩ "S").terminals
        "A" = true ∧
    Effect.spawnProc (server_popen 4) 7
        ∈ (handle_terminal_connect osOk [] "A" ⟨some 80, some 65536⟩ "S").effects ∧
    (handle_terminal_connect osOk [] "A" ⟨some 80, some 65536⟩ "S").raised
        = some "struct.error" ∧
    (handle_terminal_connect osOk [] "A" ⟨some 80, some 65536⟩ "S").effects.all
        (fun e => !(Effect.isEmit e)) = true := by
  decide

/-- C9 amended: on init with a fresh identifier and both OS calls
succeeding, the initial size is applied only when the payload carries both
keys: with at most one of the two keys the session is created with no
window-size change and the connected notice is emitted; with both keys and
both values in the unsigned 16-bit range, exactly one ioctl with those
dimensions precedes the relay start and the connected notice; with both
keys but a value out of range, the session is still created but the handler
raises `struct.error`, starting no relay and emitting no notice. -/
theorem connect_initial_size (os : OsOracle) (terminals : Registry)
    (sid : Sid) (serial : String) (m s p : Nat)
    (hnew : regContains terminals sid = false)
    (hpty : os.openpty = Except.ok (m, s)) (hpop : os.popen = Except.ok p) :
    (∀ data : ConnectData, (data.cols = none ∨ data.rows = none) →
       handle_terminal_connect os terminals sid data serial =
         ⟨regInsert terminals sid (Term.mk m s p),
          [Effect.openPty m s, Effect.spawnProc (server_popen s) p,
           Effect.startRelay sid,
           Effect.emitOutput sid ("Connected to " ++ serial ++ "\r\n")],
          none⟩) ∧
    (∀ r c : Int, 0 ≤ r → r ≤ 65535 → 0 ≤ c → c ≤ 65535 →
       handle_terminal_connect os terminals sid ⟨some c, some r⟩ serial =
         ⟨regInsert terminals sid (Term.mk m s p),
          [Effect.openPty m s, Effect.spawnProc (server_popen s) p,
           Effect.ioctlWinsize m r.toNat c.toNat, Effect.startRelay sid,
           Effect.emitOutput sid ("Connected to " ++ serial ++ "\r\n")],
          none⟩) ∧
    (∀ r c : Int, ¬(0 ≤ r ∧ r ≤ 65535 ∧ 0 ≤ c ∧ c ≤ 65535) →
       handle_terminal_connect os terminals sid ⟨some c, some r⟩ serial =
         ⟨regInsert terminals sid (Term.mk m s p),
          [Effect.openPty m s, Effect.spawnProc (server_popen s) p],
          some "struct.error"⟩) := by
  refine ⟨?_, ?_, ?_⟩
  · rintro ⟨dc, dr⟩ h
    rcases h with rfl | rfl
    · cases dr <;> simp [handle_terminal_connect, hnew, hpty, hpop]
    · cases dc <;> simp [handle_terminal_connect, hnew, hpty, hpop]
  · intro r c hr0 hr1 hc0 hc1
    simp [handle_terminal_connect, hnew, hpty, hpop, handle_terminal_resize,
      regLookup_insert, hr0, hr1, hc0, hc1]
  · intro r c hbad
    simp [handle_terminal_connect, hnew, hpty, hpop, handle_terminal_resize,
      regLookup_insert, hbad]

/-- Witness for `connect_initial_size`: a concrete init with cols 80 and
rows 24 yields exactly the allocation, the spawn, one ioctl, the relay
start and the connected notice. -/
theorem connect_initial_size_witness :
    regContains ([] : Registry) "A" = false ∧
    handle_terminal_connect osOk [] "A" ⟨some 80, some 24⟩ "S" =
      ⟨regInsert [] "A" (Term.mk 3 4 7),
       [Effect.openPty 3 4, Effect.spawnProc (server_popen 4) 7,
        Effect.ioctlWinsize 3 24 80, Effect.startRelay "A",
        Effect.emitOutput "A" ("Connected to " ++ "S" ++ "\r\n")],
       none⟩ :=
  ⟨by decide,
   (connect_initial_size osOk [] "A" "S" 3 4 7 (by decide) rfl rfl).2.1
     24 80 (by decide) (by decide) (by decide) (by decide)⟩

/-- C10: along a run of successful reads on a live session, the relay emits
exactly one chunk per read, in order, each chunk being the UTF-8
replace-decoding of the bytes of that read; every read it performs requests
at most 1024 bytes; and the decoding is not byte-faithful: the invalid
byte 0xFF becomes the replacement character U+FFFD. -/
theorem relay_chunks (sid : Sid) (fd : Fd) (reg : Registry)
    (chunks : List (List Nat)) (h : regContains reg sid = true) :
    emittedData (relayRun sid fd (chunks.map (fun b => (reg, Poll.readOk b))))
      = chunks.map decodeUtf8Replace ∧
    (∀ f n b, Effect.readFd f n b ∈
        relayRun sid fd (chunks.map (fun b => (reg, Poll.readOk b))) →
        n = 1024 ∧ b ∈ chunks) ∧
    decodeUtf8Replace [255] = String.mk [replCh] := by
  refine ⟨?_, ?_, by decide⟩
  · induction chunks with
    | nil => simp [relayRun, emittedData]
    | cons cchunk cs ih =>
      simp only [List.map_cons, relayRun, h, if_true, emittedData,
        List.filterMap_cons] at ih ⊢
      simpa [Effect.isEmit] using ih
  · induction chunks with
    | nil => intro f n b hmem; simp [relayRun] at hmem
    | cons cchunk cs ih =>
      intro f n b hmem
      simp only [List.map_cons, relayRun, h, if_true, List.mem_cons] at hmem
      rcases hmem with h1 | h1 | h1 | h2
      · exact absurd h1 (by simp)
      · obtain ⟨hf, hn, hb⟩ := (Effect.readFd.injEq _ _ _ _ _ _).mp h1
        exact ⟨hn, by simp [hb]⟩
      · exact absurd h1 (by simp)
      · obtain ⟨hn, hb⟩ := ih f n b h2
        exact ⟨hn, by simp [hb]⟩

/-- Witness for `relay_chunks`: two reads, plain ASCII and one invalid
byte, forwarded in order as their decodings. -/
theorem relay_chunks_witness :
    regContains [("A", Term.mk 3 4 7)] "A" = true ∧
    emittedData (relayRun "A" 3 ([[104, 105], [255]].map
        (fun b => ([("A", Term.mk 3 4 7)], Poll.readOk b))))
      = [[104, 105], [255]].map decodeUtf8Replace :=
  ⟨by decide,
   (relay_chunks "A" 3 [("A", Term.mk 3 4 7)] [[104, 105], [255]]
     (by decide)).1⟩

end NexusPortal
